import Mathlib

/-!
Verification of the AI Hotel Search Agent (src/travel_agent_new.py).

The repository is a single Streamlit page: it collects trip parameters,
validates them, loads two API keys from the environment, builds a two-agent
crewai pipeline and runs it, storing the returned text in a session-state
slot that is rendered and offered as a download.

We embed the locally authored logic shallowly:
  * `calculate_days` over calendar dates (Python `datetime.date` subtraction
    is the difference of proleptic-Gregorian ordinals);
  * the Generate-Itinerary button handler (`main`, lines 113-138) as a pure
    function of the inputs, the environment, the external crew runner and the
    previous session state;
  * `create_agents` / `create_tasks` / `run_travel_planner` as builders of
    explicit `Agent` / `Task` / `Crew` records, with `crew.kickoff()` an
    opaque parameter that either returns a string or raises (`Except`);
  * the result display / download block (`main`, lines 141-152).
-/

namespace TravelAgent

/-- A calendar date, mirroring Python `datetime.date` (proleptic Gregorian). -/
structure Date where
  year : Nat
  month : Nat
  day : Nat
deriving DecidableEq

/-- Gregorian leap-year rule, as in CPython `datetime._is_leap`. -/
def isLeap (y : Nat) : Bool :=
  y % 4 == 0 && (!(y % 100 == 0) || y % 400 == 0)

/-- Length of a month, as in CPython `datetime._days_in_month`. -/
def daysInMonth (y m : Nat) : Nat :=
  if m = 2 then (if isLeap y then 29 else 28)
  else if m = 4 ∨ m = 6 ∨ m = 9 ∨ m = 11 then 30
  else 31

/-- CPython `datetime._DAYS_BEFORE_MONTH` table (non-leap cumulative days). -/
def daysBeforeMonthTable (m : Nat) : Nat :=
  if m = 1 then 0 else if m = 2 then 31 else if m = 3 then 59
  else if m = 4 then 90 else if m = 5 then 120 else if m = 6 then 151
  else if m = 7 then 181 else if m = 8 then 212 else if m = 9 then 243
  else if m = 10 then 273 else if m = 11 then 304 else if m = 12 then 334
  else 0

/-- Days in year `y` preceding month `m`, as in CPython
`datetime._days_before_month`. -/
def daysBeforeMonth (y m : Nat) : Nat :=
  daysBeforeMonthTable m + (if 2 < m ∧ isLeap y then 1 else 0)

/-- Days before January 1st of year `y`, as in CPython
`datetime._days_before_year`. -/
def daysBeforeYear (y : Nat) : Nat :=
  (y - 1) * 365 + (y - 1) / 4 - (y - 1) / 100 + (y - 1) / 400

/-- Proleptic-Gregorian ordinal of a date, as in CPython `datetime._ymd2ord`
(`date(1, 1, 1).toordinal() = 1`). -/
def toOrdinal (d : Date) : Nat :=
  daysBeforeYear d.year + daysBeforeMonth d.year d.month + d.day

/-- Function calculate_days (src/travel_agent_new.py lines 13-16):
`(check_out_date - check_in_date).days`.  Python date subtraction yields a
`timedelta` whose `.days` is the signed difference of the ordinals. -/
def calculate_days (check_in_date check_out_date : Date) : Int :=
  (toOrdinal check_out_date : Int) - (toOrdinal check_in_date : Int)

/-- A structurally valid calendar date (the only dates Python `date` admits). -/
def Date.Valid (d : Date) : Prop :=
  1 ≤ d.year ∧ 1 ≤ d.month ∧ d.month ≤ 12 ∧ 1 ≤ d.day ∧
    d.day ≤ daysInMonth d.year d.month

instance (d : Date) : Decidable d.Valid := by
  unfold Date.Valid; infer_instance

/-- The calendar successor of a date: the specification-side notion of
"one day later", used to state what "number of days between two dates"
means independently of the ordinal encoding. -/
def nextDay (d : Date) : Date :=
  if d.day < daysInMonth d.year d.month then ⟨d.year, d.month, d.day + 1⟩
  else if d.month < 12 then ⟨d.year, d.month + 1, 1⟩
  else ⟨d.year + 1, 1, 1⟩

theorem isLeap_iff (y : Nat) :
    isLeap y = true ↔ (y % 4 = 0 ∧ (¬ y % 100 = 0 ∨ y % 400 = 0)) := by
  simp [isLeap]

set_option maxHeartbeats 1000000 in
theorem daysBeforeYear_succ (y : Nat) (hy : 1 ≤ y) :
    daysBeforeYear (y + 1) = daysBeforeYear y + (if isLeap y then 366 else 365) := by
  by_cases hl : isLeap y = true
  · rw [if_pos hl]
    rcases (isLeap_iff y).mp hl with ⟨h4, h100⟩
    unfold daysBeforeYear
    rcases h100 with h100 | h400
    · omega
    · omega
  · rw [if_neg hl]
    rw [isLeap_iff] at hl
    push_neg at hl
    unfold daysBeforeYear
    by_cases h4 : y % 4 = 0
    · rcases hl h4 with ⟨h100, h400⟩
      omega
    · omega

theorem daysBeforeMonth_succ (y m : Nat) (h1 : 1 ≤ m) (h12 : m ≤ 11) :
    daysBeforeMonth y (m + 1) = daysBeforeMonth y m + daysInMonth y m := by
  unfold daysBeforeMonth daysInMonth
  cases hl : isLeap y <;> interval_cases m <;>
    norm_num [daysBeforeMonthTable, hl]

theorem daysInMonth_pos (y m : Nat) : 1 ≤ daysInMonth y m := by
  unfold daysInMonth
  split
  · split <;> omega
  · split <;> omega

theorem nextDay_valid (d : Date) (h : d.Valid) : (nextDay d).Valid := by
  obtain ⟨hy, hm1, hm12, hd1, hdm⟩ := h
  unfold nextDay
  by_cases h1 : d.day < daysInMonth d.year d.month
  · rw [if_pos h1]
    unfold Date.Valid
    dsimp only
    exact ⟨hy, hm1, hm12, by omega, by omega⟩
  · rw [if_neg h1]
    by_cases h2 : d.month < 12
    · rw [if_pos h2]
      unfold Date.Valid
      dsimp only
      exact ⟨hy, by omega, by omega, le_refl 1, daysInMonth_pos _ _⟩
    · rw [if_neg h2]
      unfold Date.Valid
      dsimp only
      exact ⟨by omega, le_refl 1, by omega, le_refl 1, daysInMonth_pos _ _⟩

theorem toOrdinal_nextDay (d : Date) (h : d.Valid) :
    toOrdinal (nextDay d) = toOrdinal d + 1 := by
  obtain ⟨hy, hm1, hm12, hd1, hdm⟩ := h
  unfold nextDay
  by_cases h1 : d.day < daysInMonth d.year d.month
  · rw [if_pos h1]
    simp only [toOrdinal]
    omega
  · rw [if_neg h1]
    have hday : d.day = daysInMonth d.year d.month := by omega
    by_cases h2 : d.month < 12
    · rw [if_pos h2]
      simp only [toOrdinal]
      rw [daysBeforeMonth_succ d.year d.month hm1 (by omega)]
      omega
    · rw [if_neg h2]
      have hm : d.month = 12 := by omega
      have hin12 : daysInMonth d.year 12 = 31 := by simp [daysInMonth]
      have hday31 : d.day = 31 := by rw [hm, hin12] at hday; exact hday
      simp only [toOrdinal]
      rw [hm, hday31, daysBeforeYear_succ d.year hy]
      cases hl : isLeap d.year <;>
        simp [daysBeforeMonth, daysBeforeMonthTable, hl]

/-- Function load_environment (lines 9-11): returns
`(os.getenv('OPENAI_API_KEY'), os.getenv('SERPER_API_KEY'))`.  The process
environment is a partial map from variable names to strings. -/
def load_environment (env : String → Option String) : Option String × Option String :=
  (env "OPENAI_API_KEY", env "SERPER_API_KEY")

/-- Python truthiness of an optional string: `None` and `""` are falsy. -/
def truthy : Option String → Bool
  | none => false
  | some s => s != ""

/-- A crewai `Agent` as constructed by this repository: keyword arguments of
the `Agent(...)` calls (lines 22-35); tools are identified by class name. -/
structure Agent where
  role : String
  goal : String
  backstory : String
  tools : List String
  verbose : Bool
deriving DecidableEq

/-- A crewai `Task` as constructed by this repository (lines 40-50). -/
structure Task where
  description : String
  expected_output : String
  agent : Agent
deriving DecidableEq

/-- The crewai execution process selected by this repository. -/
inductive Process where
  | sequential
deriving DecidableEq

/-- A crewai `Crew` as constructed by `run_travel_planner` (lines 60-65). -/
structure Crew where
  agents : List Agent
  tasks : List Task
  process : Process
  verbose : Bool
deriving DecidableEq

/-- Zero-padded two-digit rendering, as in `str(date)` month/day fields. -/
def pad2 (n : Nat) : String :=
  if n < 10 then "0" ++ toString n else toString n

/-- Four-digit year rendering, as in `str(date)`. -/
def pad4 (n : Nat) : String :=
  if n < 10 then "000" ++ toString n
  else if n < 100 then "00" ++ toString n
  else if n < 1000 then "0" ++ toString n
  else toString n

/-- Python `str(date)`: ISO `YYYY-MM-DD`. -/
def dateStr (d : Date) : String :=
  pad4 d.year ++ "-" ++ pad2 d.month ++ "-" ++ pad2 d.day

/-- Function create_agents (lines 18-37): builds the researcher and planner agents;
the researcher goal is the f-string of line 24 with the inputs interpolated. -/
def create_agents (destination : String) (days budget people : Int)
    (check_in_date check_out_date : Date) : Agent × Agent :=
  let search_tool := "SerperDevTool"
  let web_rag_tool := "WebsiteSearchTool"
  let researcher : Agent :=
    { role := "Travel Planner Expert"
      goal := "Scrape the web to find the best deals for " ++ destination ++
        ", stay=" ++ toString days ++ " days, budget=approx " ++
        toString budget ++ " USD," ++ toString people ++ "," ++
        dateStr check_in_date ++ " and " ++ dateStr check_out_date ++
        "from booking.com website."
      backstory := "An expert analyst in planning travel"
      tools := [search_tool, web_rag_tool]
      verbose := true }
  let planner : Agent :=
    { role := "Travel Planner"
      goal := "Generate customized itineraries of hotels based on user preferences"
      backstory := "An expert in generating hotel itinerary"
      tools := []
      verbose := true }
  (researcher, planner)

/-- Function create_tasks (lines 39-52): builds the research and planning tasks. -/
def create_tasks (researcher planner : Agent) : Task × Task :=
  let research : Task :=
    { description := "Find the best itinerary for a user based on their preferences"
      expected_output := "A summary hotels itineraries including Hotel Name, City, Cost per day, Amenities"
      agent := researcher }
  let planning : Task :=
    { description := "Generate a customized itinerary for a user based on their preferences"
      expected_output := "Shortlist top 10 hotel deals for the user based on their preferences. Include the booking URLs in the response"
      agent := planner }
  (research, planning)

/-- The `Crew` assembled by `run_travel_planner` (lines 54-65). -/
def run_travel_planner_setup (destination : String) (days budget people : Int)
    (check_in_date check_out_date : Date) : Crew :=
  let (researcher, planner) :=
    create_agents destination days budget people check_in_date check_out_date
  let (research_task, planning_task) := create_tasks researcher planner
  { agents := [researcher, planner]
    tasks := [research_task, planning_task]
    process := Process.sequential
    verbose := true }

/-- Function run_travel_planner (lines 54-67): assembles the crew and returns
`crew.kickoff()`.  The external runner is an opaque parameter that either
returns a result string or raises an exception (`Except.error`). -/
def run_travel_planner (kickoff : Crew → Except String String)
    (destination : String) (days budget people : Int)
    (check_in_date check_out_date : Date) : Except String String :=
  kickoff (run_travel_planner_setup destination days budget people
    check_in_date check_out_date)

/-- Observable outcome of one press of the Generate Itinerary button:
the error messages rendered with `st.error`, the number of times
`run_travel_planner` was invoked, and the session-state result slot after
the handler returns. -/
structure HandlerOut where
  errors : List String
  calls : Nat
  state : Option String
deriving DecidableEq

/-- The Generate Itinerary button handler (`main`, lines 113-138):
destination and duration validation, credential loading and check inside the
`try` block, the downstream call, and the `except` clause that renders any
exception as two inline error messages.  `st` is the previous value of
`st.session_state.itinerary_result`. -/
def generateItinerary (destination : String) (days budget people : Int)
    (check_in_date check_out_date : Date) (env : String → Option String)
    (kickoff : Crew → Except String String) (st : Option String) : HandlerOut :=
  if destination = "" then
    { errors := ["Please enter a destination"], calls := 0, state := st }
  else if days < 1 then
    { errors := ["Check-out date must be after check-in date"], calls := 0, state := st }
  else
    let (openai_api_key, serp_api_key) := load_environment env
    if !truthy openai_api_key || !truthy serp_api_key then
      { errors := ["Missing API keys. Please check your environment variables."],
        calls := 0, state := st }
    else
      match run_travel_planner kickoff destination days budget people
          check_in_date check_out_date with
      | Except.ok result =>
        { errors := [], calls := 1, state := some result }
      | Except.error e =>
        { errors := ["An error occurred: " ++ e,
                     "Please try again or contact support if the problem persists."],
          calls := 1, state := st }

/-- One press of the button as wired in `main`: the duration passed to the
handler is `calculate_days check_in_date check_out_date` (line 109). -/
def pressGenerate (destination : String) (budget people : Int)
    (check_in_date check_out_date : Date) (env : String → Option String)
    (kickoff : Crew → Except String String) (st : Option String) : HandlerOut :=
  generateItinerary destination (calculate_days check_in_date check_out_date)
    budget people check_in_date check_out_date env kickoff st

/-- The result display block (`main`, lines 141-152): when the session-state
slot is truthy, a download is offered with the given file name and data.
Returns `some (file_name, data)` when the download button is rendered. -/
def downloadOffer (st : Option String) (destination : String) :
    Option (String × String) :=
  match st with
  | none => none
  | some r =>
    if r = "" then none
    else some ("travel_itinerary_" ++ destination ++ ".txt", r)

/-- Streamlit `number_input` contract (external widget): the returned value
is kept within the `min_value` / `max_value` bounds passed at the call site. -/
def number_input (min_value : Int) (max_value : Option Int) (entered : Int) : Int :=
  let v := max min_value entered
  match max_value with
  | none => v
  | some hi => min v hi

/-- The party-size widget (line 88): `min_value=1, value=1`. -/
def people_input (entered : Int) : Int :=
  number_input 1 none entered

/-- The budget widget (line 91): `min_value=100, max_value=50000, value=1000`. -/
def budget_input (entered : Int) : Int :=
  number_input 100 (some 50000) entered

theorem toOrdinal_iterate (d : Date) (h : d.Valid) (n : Nat) :
    toOrdinal (nextDay^[n] d) = toOrdinal d + n ∧ (nextDay^[n] d).Valid := by
  induction n with
  | zero => exact ⟨rfl, h⟩
  | succ k ih =>
    rw [Function.iterate_succ_apply']
    refine ⟨?_, nextDay_valid _ ih.2⟩
    rw [toOrdinal_nextDay _ ih.2, ih.1]
    omega

/-- A concrete environment providing both credentials, for instantiations. -/
def envBoth : String → Option String := fun _ => some "key"

/-- A concrete environment with both credentials absent. -/
def envMissing : String → Option String := fun _ => none

/-- A concrete external runner that returns a fixed itinerary text. -/
def kickOk : Crew → Except String String := fun _ => Except.ok "PLAN"

/-- A concrete external runner that raises an exception. -/
def kickFail : Crew → Except String String := fun _ => Except.error "boom"

/-- C1: for every valid check-in date and every pair of dates where check-out
is strictly after check-in (check-out reached from check-in by `n ≥ 1`
calendar-successor steps), `calculate_days` returns exactly `n`; and on the
concrete example check-in 2024-06-01, check-out 2024-06-05 it returns 4. -/
theorem C1_calculate_days_exact :
    (∀ (a : Date) (n : Nat), a.Valid → 1 ≤ n →
      calculate_days a (nextDay^[n] a) = (n : Int)) ∧
    calculate_days ⟨2024, 6, 1⟩ ⟨2024, 6, 5⟩ = 4 := by
  constructor
  · intro a n ha _
    unfold calculate_days
    rw [(toOrdinal_iterate a ha n).1]
    push_cast
    omega
  · decide

theorem C1_calculate_days_exact_witness :
    calculate_days ⟨2024, 6, 1⟩ (nextDay^[4] ⟨2024, 6, 1⟩) = (4 : Int) :=
  C1_calculate_days_exact.1 ⟨2024, 6, 1⟩ 4 (by decide) (by decide)

/-- C2: whenever the computed duration is below 1, pressing Generate
Itinerary shows an error and never invokes `run_travel_planner`. -/
theorem C2_nonpositive_duration_refused (destination : String)
    (budget people : Int) (ci co : Date) (env : String → Option String)
    (kickoff : Crew → Except String String) (st : Option String)
    (h : calculate_days ci co < 1) :
    (pressGenerate destination budget people ci co env kickoff st).calls = 0 ∧
    (pressGenerate destination budget people ci co env kickoff st).errors ≠ [] := by
  unfold pressGenerate generateItinerary
  by_cases hd : destination = ""
  · simp [hd]
  · rw [if_neg hd, if_pos h]
    simp

theorem C2_nonpositive_duration_refused_witness :
    (pressGenerate "Goa" 1000 2 ⟨2024, 6, 1⟩ ⟨2024, 6, 1⟩ envBoth kickOk none).calls = 0 ∧
    (pressGenerate "Goa" 1000 2 ⟨2024, 6, 1⟩ ⟨2024, 6, 1⟩ envBoth kickOk none).errors ≠ [] :=
  C2_nonpositive_duration_refused "Goa" 1000 2 ⟨2024, 6, 1⟩ ⟨2024, 6, 1⟩
    envBoth kickOk none (by decide)

/-- C3: with an empty destination the handler returns the destination-required
error, zero downstream calls, and an unchanged result slot, for every
duration, budget, party size, date pair, environment and runner. -/
theorem C3_empty_destination_refused (days budget people : Int) (ci co : Date)
    (env : String → Option String) (kickoff : Crew → Except String String)
    (st : Option String) :
    generateItinerary "" days budget people ci co env kickoff st =
      { errors := ["Please enter a destination"], calls := 0, state := st } := by
  unfold generateItinerary
  simp

/-- C4: when either credential is absent from the environment, the handler
performs no downstream call, leaves the result slot unchanged, returns
normally, and (once the earlier destination and duration checks pass) shows
the missing-credentials error. -/
theorem C4_missing_credentials_refused (destination : String)
    (days budget people : Int) (ci co : Date) (env : String → Option String)
    (kickoff : Crew → Except String String) (st : Option String)
    (h : env "OPENAI_API_KEY" = none ∨ env "SERPER_API_KEY" = none) :
    (generateItinerary destination days budget people ci co env kickoff st).calls = 0 ∧
    (generateItinerary destination days budget people ci co env kickoff st).state = st ∧
    (destination ≠ "" → ¬ days < 1 →
      (generateItinerary destination days budget people ci co env kickoff st).errors =
        ["Missing API keys. Please check your environment variables."]) := by
  have htr : (!truthy (env "OPENAI_API_KEY") || !truthy (env "SERPER_API_KEY")) = true := by
    rcases h with h | h <;> simp [h, truthy]
  unfold generateItinerary load_environment
  by_cases hd : destination = ""
  · simp [hd]
  · rw [if_neg hd]
    by_cases hdays : days < 1
    · simp [hdays]
    · rw [if_neg hdays]
      simp [htr, hd, hdays]

theorem C4_missing_credentials_refused_witness :
    (generateItinerary "Goa" 4 1000 2 ⟨2024, 6, 1⟩ ⟨2024, 6, 5⟩ envMissing kickOk none).calls = 0 ∧
    (generateItinerary "Goa" 4 1000 2 ⟨2024, 6, 1⟩ ⟨2024, 6, 5⟩ envMissing kickOk none).state = none ∧
    ("Goa" ≠ "" → ¬ (4 : Int) < 1 →
      (generateItinerary "Goa" 4 1000 2 ⟨2024, 6, 1⟩ ⟨2024, 6, 5⟩ envMissing kickOk none).errors =
        ["Missing API keys. Please check your environment variables."]) :=
  C4_missing_credentials_refused "Goa" 4 1000 2 ⟨2024, 6, 1⟩ ⟨2024, 6, 5⟩
    envMissing kickOk none (Or.inl rfl)

/-- C5: when the inputs pass validation and the credentials are present, an
exception raised by the downstream runner is caught: the handler returns
normally with exactly the two inline error messages, a single downstream
attempt, and an unchanged result slot. -/
theorem C5_exception_caught_inline (destination : String)
    (days budget people : Int) (ci co : Date) (env : String → Option String)
    (kickoff : Crew → Except String String) (st : Option String) (e : String)
    (hd : destination ≠ "") (hdays : ¬ days < 1)
    (ho : truthy (env "OPENAI_API_KEY") = true)
    (hs : truthy (env "SERPER_API_KEY") = true)
    (hk : run_travel_planner kickoff destination days budget people ci co =
      Except.error e) :
    generateItinerary destination days budget people ci co env kickoff st =
      { errors := ["An error occurred: " ++ e,
                   "Please try again or contact support if the problem persists."],
        calls := 1, state := st } := by
  unfold generateItinerary load_environment
  rw [if_neg hd, if_neg hdays]
  simp [ho, hs, hk]

theorem C5_exception_caught_inline_witness :
    generateItinerary "Goa" 4 1000 2 ⟨2024, 6, 1⟩ ⟨2024, 6, 5⟩ envBoth kickFail (some "old") =
      { errors := ["An error occurred: " ++ "boom",
                   "Please try again or contact support if the problem persists."],
        calls := 1, state := some "old" } :=
  C5_exception_caught_inline "Goa" 4 1000 2 ⟨2024, 6, 1⟩ ⟨2024, 6, 5⟩
    envBoth kickFail (some "old") "boom" (by decide) (by decide) rfl rfl rfl

/-- C6: `run_travel_planner` assembles exactly two agents (researcher then
planner) and exactly two tasks (research then planning, each assigned to the
corresponding agent), selects the sequential process, and hands exactly this
crew to the external runner. -/
theorem C6_two_agents_two_tasks_sequential (destination : String)
    (days budget people : Int) (ci co : Date)
    (kickoff : Crew → Except String String) :
    (run_travel_planner_setup destination days budget people ci co).agents.length = 2 ∧
    (run_travel_planner_setup destination days budget people ci co).agents.map Agent.role =
      ["Travel Planner Expert", "Travel Planner"] ∧
    (run_travel_planner_setup destination days budget people ci co).tasks.length = 2 ∧
    (run_travel_planner_setup destination days budget people ci co).tasks.map Task.description =
      ["Find the best itinerary for a user based on their preferences",
       "Generate a customized itinerary for a user based on their preferences"] ∧
    (run_travel_planner_setup destination days budget people ci co).tasks.map
        (fun t => t.agent.role) =
      ["Travel Planner Expert", "Travel Planner"] ∧
    (run_travel_planner_setup destination days budget people ci co).process =
      Process.sequential ∧
    run_travel_planner kickoff destination days budget people ci co =
      kickoff (run_travel_planner_setup destination days budget people ci co) :=
  ⟨rfl, rfl, rfl, rfl, rfl, rfl, rfl⟩

/-- C7 counterexample: the empty string is a stored result, yet no download
is offered for it (the display block tests Python truthiness, and `""` is
falsy), refuting the claim for result `""` at destination `"Paris"`. -/
theorem C7_download_counterexample :
    downloadOffer (some "") "Paris" = none ∧
    downloadOffer (some "") "Paris" ≠
      some ("travel_itinerary_" ++ "Paris" ++ ".txt", "") := by
  constructor
  · rfl
  · intro h
    exact Option.noConfusion h

/-- C7 (amended): whenever a non-empty result string is stored, the download
is offered with file name `travel_itinerary_<destination>.txt` and contents
equal to the stored string. -/
theorem C7_download_nonempty (destination r : String) (h : r ≠ "") :
    downloadOffer (some r) destination =
      some ("travel_itinerary_" ++ destination ++ ".txt", r) := by
  unfold downloadOffer
  simp [h]

theorem C7_download_nonempty_witness :
    downloadOffer (some "PLAN") "Goa" =
      some ("travel_itinerary_" ++ "Goa" ++ ".txt", "PLAN") :=
  C7_download_nonempty "Goa" "PLAN" (by decide)

/-- C8: the party-size widget (min 1) and budget widget (min 100, max 50000)
keep every forwarded value in range: people ≥ 1 and 100 ≤ budget ≤ 50000. -/
theorem C8_widget_bounds (entered_people entered_budget : Int) :
    1 ≤ people_input entered_people ∧
    100 ≤ budget_input entered_budget ∧
    budget_input entered_budget ≤ 50000 := by
  refine ⟨?_, ?_, ?_⟩ <;>
    simp [people_input, budget_input, number_input]

/-- C9: `calculate_days` is total on dates and computes the signed day
difference: it is zero on equal dates and antisymmetric under swapping its
arguments. -/
theorem C9_calculate_days_signed_total (a b : Date) :
    calculate_days a a = 0 ∧ calculate_days a b = - calculate_days b a := by
  unfold calculate_days
  omega

/-- C10: the session-state result slot survives every failed run (empty
destination, duration below 1, falsy credential, or downstream exception)
unchanged, and it changes only to the string returned by a successful
downstream call. -/
theorem C10_state_overwritten_only_on_success (destination : String)
    (days budget people : Int) (ci co : Date) (env : String → Option String)
    (kickoff : Crew → Except String String) (st : Option String) :
    ((destination = "" ∨ days < 1 ∨ truthy (env "OPENAI_API_KEY") = false ∨
        truthy (env "SERPER_API_KEY") = false ∨
        (∃ e, run_travel_planner kickoff destination days budget people ci co =
          Except.error e)) →
      (generateItinerary destination days budget people ci co env kickoff st).state = st) ∧
    ((generateItinerary destination days budget people ci co env kickoff st).state ≠ st →
      ∃ r, run_travel_planner kickoff destination days budget people ci co =
          Except.ok r ∧
        (generateItinerary destination days budget people ci co env kickoff st).state =
          some r) := by
  unfold generateItinerary load_environment
  by_cases hd : destination = ""
  · simp [hd]
  · rw [if_neg hd]
    by_cases hdays : days < 1
    · rw [if_pos hdays]
      exact ⟨fun _ => rfl, fun hne => absurd rfl hne⟩
    · rw [if_neg hdays]
      dsimp only
      cases hb : (!truthy (env "OPENAI_API_KEY") || !truthy (env "SERPER_API_KEY")) with
      | true =>
        simp [hb]
      | false =>
        have hbo : truthy (env "OPENAI_API_KEY") = true := by
          rcases Bool.or_eq_false_iff.mp hb with ⟨h1, _⟩
          simpa using h1
        have hbs : truthy (env "SERPER_API_KEY") = true := by
          rcases Bool.or_eq_false_iff.mp hb with ⟨_, h2⟩
          simpa using h2
        simp only [hb, if_false, Bool.false_eq_true]
        cases hk : run_travel_planner kickoff destination days budget people ci co with
        | ok r =>
          simp only [hk]
          constructor
          · intro hpre
            rcases hpre with h | h | h | h | ⟨e, he⟩
            · exact absurd h hd
            · exact absurd h hdays
            · rw [hbo] at h; exact absurd h (by simp)
            · rw [hbs] at h; exact absurd h (by simp)
            · exact Except.noConfusion he
          · intro _
            exact ⟨r, rfl, rfl⟩
        | error e =>
          simp [hk]

theorem C10_state_overwritten_only_on_success_witness :
    (generateItinerary "Goa" 4 1000 2 ⟨2024, 6, 1⟩ ⟨2024, 6, 5⟩
        envBoth kickFail (some "old")).state = some "old" :=
  (C10_state_overwritten_only_on_success "Goa" 4 1000 2 ⟨2024, 6, 1⟩ ⟨2024, 6, 5⟩
      envBoth kickFail (some "old")).1
    (Or.inr (Or.inr (Or.inr (Or.inr ⟨"boom", rfl⟩))))

end TravelAgent
